import Mathlib

set_option maxRecDepth 100000

/-!
# Verification of the speech-caching and hybrid playback subsystem

Shallow embedding of the text-to-speech route (`src/app/api/fetch-and-simplify/route.ts`,
TTS section: `generateCacheKey`, `getCachedAudio`, `saveToCache`, `calculateCost`,
`generateOpenAITTS`, `POST`) and of the playback queue
(`src/lib/api-client.ts`, `HybridAudioPlayer`).

Machine 32-bit arithmetic is modelled as `Nat` with explicit `% 2^32`.
External I/O (the filesystem cache, the OpenAI credential and call outcome) is
modelled by an explicit environment record; effects (remote calls made, cache
writes performed) are returned explicitly.
-/

/-! ## Bytes and UTF-8

`crypto.createHash('md5').update(content)` hashes the UTF-8 bytes of the
content string; we encode `String` to bytes accordingly. -/

/-- UTF-8 encoding of a single code point, as a list of byte values. -/
def charUtf8 (c : Nat) : List Nat :=
  if c < 128 then [c]
  else if c < 2048 then [192 + c / 64, 128 + c % 64]
  else if c < 65536 then [224 + c / 4096, 128 + (c / 64) % 64, 128 + c % 64]
  else [240 + c / 262144, 128 + (c / 4096) % 64, 128 + (c / 64) % 64, 128 + c % 64]

/-- UTF-8 bytes of a string. -/
def strUtf8 (s : String) : List Nat :=
  (s.data.map (fun c => charUtf8 c.toNat)).flatten

/-! ## MD5 (RFC 1321)

Embedding of the digest used by `generateCacheKey`.  32-bit words are `Nat`
reduced modulo `4294967296 = 2^32`. -/

/-- The 64 MD5 sine-derived constants `K[i]`. -/
def md5K : List Nat :=
  [0xd76aa478, 0xe8c7b756, 0x242070db, 0xc1bdceee,
   0xf57c0faf, 0x4787c62a, 0xa8304613, 0xfd469501,
   0x698098d8, 0x8b44f7af, 0xffff5bb1, 0x895cd7be,
   0x6b901122, 0xfd987193, 0xa679438e, 0x49b40821,
   0xf61e2562, 0xc040b340, 0x265e5a51, 0xe9b6c7aa,
   0xd62f105d, 0x02441453, 0xd8a1e681, 0xe7d3fbc8,
   0x21e1cde6, 0xc33707d6, 0xf4d50d87, 0x455a14ed,
   0xa9e3e905, 0xfcefa3f8, 0x676f02d9, 0x8d2a4c8a,
   0xfffa3942, 0x8771f681, 0x6d9d6122, 0xfde5380c,
   0xa4beea44, 0x4bdecfa9, 0xf6bb4b60, 0xbebfbc70,
   0x289b7ec6, 0xeaa127fa, 0xd4ef3085, 0x04881d05,
   0xd9d4d039, 0xe6db99e5, 0x1fa27cf8, 0xc4ac5665,
   0xf4292244, 0x432aff97, 0xab9423a7, 0xfc93a039,
   0x655b59c3, 0x8f0ccc92, 0xffeff47d, 0x85845dd1,
   0x6fa87e4f, 0xfe2ce6e0, 0xa3014314, 0x4e0811a1,
   0xf7537e82, 0xbd3af235, 0x2ad7d2bb, 0xeb86d391]

/-- The 64 per-round left-rotation amounts `s[i]`. -/
def md5S : List Nat :=
  [7, 12, 17, 22, 7, 12, 17, 22, 7, 12, 17, 22, 7, 12, 17, 22,
   5, 9, 14, 20, 5, 9, 14, 20, 5, 9, 14, 20, 5, 9, 14, 20,
   4, 11, 16, 23, 4, 11, 16, 23, 4, 11, 16, 23, 4, 11, 16, 23,
   6, 10, 15, 21, 6, 10, 15, 21, 6, 10, 15, 21, 6, 10, 15, 21]

/-- Left rotation of a 32-bit word. -/
def rotl32 (x s : Nat) : Nat :=
  ((x <<< s) ||| (x >>> (32 - s))) % 4294967296

/-- MD5 padding: append `0x80`, zero bytes to 56 mod 64, then the 64-bit
little-endian bit length. -/
def md5Pad (msg : List Nat) : List Nat :=
  let len := msg.length
  let bitLen := (8 * len) % (2 ^ 64)
  let zeros := (120 - ((len + 1) % 64)) % 64
  msg ++ [128] ++ List.replicate zeros 0 ++
    (List.range 8).map (fun i => (bitLen >>> (8 * i)) % 256)

/-- Split a byte list into 64-byte blocks (fuel-driven so the kernel can
reduce it). -/
def chunk64Aux : Nat → List Nat → List (List Nat)
  | 0, _ => []
  | _ + 1, [] => []
  | fuel + 1, l => l.take 64 :: chunk64Aux fuel (l.drop 64)

/-- The sixteen little-endian 32-bit words of one 64-byte block. -/
def md5Words (block : List Nat) : List Nat :=
  (List.range 16).map (fun j =>
    block.getD (4 * j) 0 + 256 * block.getD (4 * j + 1) 0 +
    65536 * block.getD (4 * j + 2) 0 + 16777216 * block.getD (4 * j + 3) 0)

/-- One of the 64 MD5 operations, acting on the state `(a, b, c, d)`. -/
def md5Step (m : List Nat) (st : Nat × Nat × Nat × Nat) (i : Nat) :
    Nat × Nat × Nat × Nat :=
  let a := st.1
  let b := st.2.1
  let c := st.2.2.1
  let d := st.2.2.2
  let f :=
    if i < 16 then (b &&& c) ||| ((b ^^^ 4294967295) &&& d)
    else if i < 32 then (d &&& b) ||| ((d ^^^ 4294967295) &&& c)
    else if i < 48 then b ^^^ c ^^^ d
    else c ^^^ (b ||| (d ^^^ 4294967295))
  let g :=
    if i < 16 then i
    else if i < 32 then (5 * i + 1) % 16
    else if i < 48 then (3 * i + 5) % 16
    else (7 * i) % 16
  let tmp := (f + a + md5K.getD i 0 + m.getD g 0) % 4294967296
  let b' := (b + rotl32 tmp (md5S.getD i 0)) % 4294967296
  (d, b', b, c)

/-- Process one 64-byte block. -/
def md5Block (st : Nat × Nat × Nat × Nat) (block : List Nat) :
    Nat × Nat × Nat × Nat :=
  let m := md5Words block
  let r := (List.range 64).foldl (md5Step m) st
  ((st.1 + r.1) % 4294967296, (st.2.1 + r.2.1) % 4294967296,
   (st.2.2.1 + r.2.2.1) % 4294967296, (st.2.2.2 + r.2.2.2) % 4294967296)

/-- Assemble the final state into the 128-bit digest value (little-endian
byte order: word `a` contributes the least significant bytes, matching the
standard hex digest read in byte order). -/
def md5Assemble (st : Nat × Nat × Nat × Nat) : Nat :=
  st.1 % 4294967296 + (st.2.1 % 4294967296) * 4294967296 +
    (st.2.2.1 % 4294967296) * 18446744073709551616 +
    (st.2.2.2 % 4294967296) * 79228162514264337593543950336

/-- MD5 digest of a byte list, as a natural number below `2^128`. -/
def md5Nat (msg : List Nat) : Nat :=
  let padded := md5Pad msg
  md5Assemble ((chunk64Aux padded.length padded).foldl md5Block
    (0x67452301, 0xefcdab89, 0x98badcfe, 0x10325476))

/-- Hex character for a value below 16. -/
def hexChar (n : Nat) : Char :=
  if n < 10 then Char.ofNat (48 + n) else Char.ofNat (87 + n)

/-- The 32-character lowercase hex rendering of a 128-bit digest, bytes in
little-endian order as `digest('hex')` prints them. -/
def digestHex (n : Nat) : String :=
  ⟨((List.range 16).map (fun i =>
      let b := (n >>> (8 * i)) % 256
      [hexChar (b / 16), hexChar (b % 16)])).flatten⟩

/-- Any assembled digest is below `2^128`. -/
theorem md5Assemble_lt (st : Nat × Nat × Nat × Nat) :
    md5Assemble st < 340282366920938463463374607431768211456 := by
  obtain ⟨a, b, c, d⟩ := st
  unfold md5Assemble
  have h1 := Nat.mod_lt a (show 0 < 4294967296 by norm_num)
  have h2 := Nat.mod_lt b (show 0 < 4294967296 by norm_num)
  have h3 := Nat.mod_lt c (show 0 < 4294967296 by norm_num)
  have h4 := Nat.mod_lt d (show 0 < 4294967296 by norm_num)
  simp only at h1 h2 h3 h4 ⊢
  omega

/-- MD5 digests are below `2^128`. -/
theorem md5Nat_lt (msg : List Nat) :
    md5Nat msg < 340282366920938463463374607431768211456 :=
  md5Assemble_lt _

-- RFC 1321 test vectors, checked by kernel evaluation.
example : digestHex (md5Nat (strUtf8 "")) = "d41d8cd98f00b204e9800998ecf8427e" := by decide
example : digestHex (md5Nat (strUtf8 "abc")) = "900150983cd24fb0d6963f7d28e17f72" := by decide
example : digestHex (md5Nat (strUtf8 "message digest")) = "f96b697d7cb7938d525a2f31aaf161d0" := by decide
example :
    digestHex (md5Nat (strUtf8
      "12345678901234567890123456789012345678901234567890123456789012345678901234567890")) =
    "57edf4a22be3c955ac49da2e2107b67a" := by decide

/-! ## JS number stringification

`generateCacheKey` interpolates the speed with a JS template literal.  We model
speeds as rationals and their rendering as exact decimal notation (sign,
integer part, and the exact fractional expansion, up to 20 digits), which
coincides with JS `${number}` on the decimally-representable speeds the API
deals in (e.g. `1 ↦ "1"`, `0.5 ↦ "0.5"`). -/

/-- Digit character. -/
def digitChar (d : Nat) : Char := Char.ofNat (48 + d)

/-- Decimal digits of a natural number, most significant first (fuel-driven). -/
def natDigsAux : Nat → Nat → List Char
  | 0, _ => []
  | fuel + 1, n =>
      if n < 10 then [digitChar n]
      else natDigsAux fuel (n / 10) ++ [digitChar (n % 10)]

/-- Decimal rendering of a natural number. -/
def natStr (n : Nat) : List Char := natDigsAux (n + 1) n

/-- Fractional decimal digits of `num/den` (with `num < den`), by long
division, stopping when the remainder is zero or after `fuel` digits. -/
def fracDigsAux : Nat → Nat → Nat → List Char
  | 0, _, _ => []
  | fuel + 1, num, den =>
      if num = 0 then []
      else digitChar ((num * 10) / den) :: fracDigsAux fuel ((num * 10) % den) den

/-- Decimal rendering of a rational, modelling JS number stringification. -/
def numToString (q : ℚ) : String :=
  let sgn : List Char := if q < 0 then ['-'] else []
  let n := q.num.natAbs
  let ip := n / q.den
  let rem := n % q.den
  ⟨sgn ++ natStr ip ++ (if rem = 0 then [] else '.' :: fracDigsAux 20 rem q.den)⟩

example : numToString 1 = "1" := by decide
example : numToString 4 = "4" := by decide
example : numToString (mkRat 1 2) = "0.5" := by decide
example : numToString (mkRat 1 4) = "0.25" := by decide
example : numToString (mkRat (-3) 2) = "-1.5" := by decide

/-! ## Cache key (route.ts `generateCacheKey`, lines 310-313) -/

/-- The pre-hash content string: backtick-template `text-voice-speed`. -/
def cacheKeyContent (text voice : String) (speed : ℚ) : String :=
  text ++ "-" ++ voice ++ "-" ++ numToString speed

/-- `generateCacheKey(text, voice, speed)`: hex MD5 digest of the content. -/
def generateCacheKey (text voice : String) (speed : ℚ) : String :=
  digestHex (md5Nat (strUtf8 (cacheKeyContent text voice speed)))

/-- The fixed voice set of the API (`TTSRequest.voice` union type). -/
def voiceNames : List String :=
  ["alloy", "echo", "fable", "onyx", "nova", "shimmer"]

/-! ## TTS route data model (route.ts TTS section)

The request and response shapes of the text-to-speech `POST` handler.
Optional JSON fields are `Option`s; `none` is an absent field and, for
`audioUrl`, `some none` is an explicit JSON `null`. -/

/-- `TTSRequest.method` (`'openai' | 'browser' | 'auto'`). -/
inductive MethodPref
  | openai
  | browser
  | auto
deriving DecidableEq

/-- `TTSRequest.quality` (`'standard' | 'high'`). -/
inductive Quality
  | standard
  | high
deriving DecidableEq

/-- `TTSResponse.method` (`'openai' | 'browser' | 'fallback'`). -/
inductive TTSMethod
  | openai
  | browser
  | fallback
deriving DecidableEq

/-- The parsed request body (`TTSRequest` interface).  All fields except
`text` may be absent; `POST` destructures them with defaults. -/
structure TTSRequest where
  text : String
  voice : Option String := none
  speed : Option ℚ := none
  cache : Option Bool := none
  method : Option MethodPref := none
  quality : Option Quality := none
deriving DecidableEq

/-- The JSON response body (`TTSResponse` interface). -/
structure TTSResponse where
  success : Bool
  audioUrl : Option (Option String) := none
  method : Option TTSMethod := none
  error : Option String := none
  cached : Option Bool := none
  estimatedCost : Option ℚ := none
  text : Option String := none
  voice : Option String := none
  speed : Option ℚ := none
deriving DecidableEq

/-- A `POST` outcome: a JSON body with an HTTP status, or (when caching is
disabled and OpenAI synthesis succeeds) the raw mp3 bytes. -/
inductive PostResult
  | json (body : TTSResponse) (status : Nat)
  | raw (audio : List Nat)
deriving DecidableEq

/-- Whether a result is a JSON (structured) response. -/
def PostResult.isJson : PostResult → Bool
  | .json _ _ => true
  | .raw _ => false

/-- One invocation of `openai.audio.speech.create` and the inputs it was
given (the route always passes `model: "tts-1"` and clamps the speed). -/
structure RemoteCall where
  text : String
  voice : String
  speed : ℚ
deriving DecidableEq

/-- Observable side effects of one `POST`: remote synthesis invocations
(attempts, in order) and the cache keys successfully persisted. -/
structure Effects where
  remoteCalls : List RemoteCall := []
  cacheWrites : List String := []
deriving DecidableEq

/-- The external world of one request: the OpenAI credential
(`process.env.OPENAI_API_KEY`), the blob-store contents (cache keys whose
`.mp3` file exists), cache I/O faults, and the remote call outcome. -/
structure Env where
  hasApiKey : Bool
  cache : List String
  readFails : String → Bool
  writeFails : Bool
  remoteOk : Bool
  remoteAudio : List Nat

/-! ## Route helpers -/

/-- JS `String.prototype.trim` whitespace test (the characters relevant
here). -/
def isJsWs (c : Char) : Bool :=
  c = ' ' ∨ c = '\t' ∨ c = '\n' ∨ c = '\r'

/-- Characters of `text.trim()`. -/
def trimChars (l : List Char) : List Char :=
  ((l.dropWhile isJsWs).reverse.dropWhile isJsWs).reverse

/-- The public URL of a cached entry: `/audio-cache/<key>.mp3`. -/
def cachePath (key : String) : String :=
  "/audio-cache/" ++ key ++ ".mp3"

/-- `getCachedAudio` (route.ts 316-324): `fs.access` succeeds exactly when
the entry exists and no read fault occurs; every failure is caught and
reported as `null` (a miss). -/
def getCachedAudio (env : Env) (key : String) : Option String :=
  if key ∈ env.cache ∧ env.readFails key = false then some (cachePath key)
  else none

/-- `calculateCost` (route.ts 334-338): `(characterCount / 1000) * 0.015`. -/
def calculateCost (text : String) : ℚ :=
  ((text.length : ℚ) / 1000) * (0.015 : ℚ)

/-- Destructuring default: `voice = 'alloy'`. -/
def defVoice (r : TTSRequest) : String := r.voice.getD "alloy"

/-- Destructuring default: `speed = 1.0`. -/
def defSpeed (r : TTSRequest) : ℚ := r.speed.getD 1

/-- Destructuring default: `cache = true`. -/
def defCache (r : TTSRequest) : Bool := r.cache.getD true

/-- Destructuring default: `method = 'auto'`. -/
def defMethod (r : TTSRequest) : MethodPref := r.method.getD .auto

/-- Destructuring default: `quality = 'standard'`. -/
def defQuality (r : TTSRequest) : Quality := r.quality.getD .standard

/-- The cache key the route computes for a request. -/
def reqKey (r : TTSRequest) : String :=
  generateCacheKey r.text (defVoice r) (defSpeed r)

/-- The speed actually sent to OpenAI (`generateOpenAITTS`, route.ts 350):
`Math.max(0.25, Math.min(4.0, speed))`. -/
def clampSpeed (speed : ℚ) : ℚ :=
  max (mkRat 1 4) (min 4 speed)

/-- Method determination (route.ts 406-417): `ttsMethod` starts as
`'fallback'`; the first branch upgrades to `'openai'` only when the API key
is present (otherwise it stays `'fallback'` — no fall-through to browser);
the second branch selects `'browser'`. -/
def selectTTSMethod (method : MethodPref) (quality : Quality) (hasKey : Bool) :
    TTSMethod :=
  if method = .openai ∨ (method = .auto ∧ quality = .high) then
    if hasKey then .openai else .fallback
  else if method = .browser ∨ (method = .auto ∧ quality = .standard) then
    .browser
  else .fallback

/-- The browser-TTS JSON response (route.ts 453-464): success, explicit
`null` URL, zero cost, and the text/voice/speed for client-side rendering. -/
def browserResp (r : TTSRequest) : PostResult :=
  .json { success := true, method := some .browser, audioUrl := some none,
          estimatedCost := some 0, text := some r.text,
          voice := some (defVoice r), speed := some (defSpeed r) } 200

/-- The cache-hit JSON response (route.ts 395-403). -/
def hitResp (url : String) : PostResult :=
  .json { success := true, audioUrl := some (some url), method := some .openai,
          cached := some true, estimatedCost := some 0 } 200

/-! ## The POST handler (route.ts 359-484)

Returns the response, the effects, and the updated environment (the cache
grows by one entry on a successful `saveToCache`).  The `try` around the
OpenAI branch catches both a failed synthesis call and a failed cache
write, demoting `ttsMethod` to `'browser'` (route.ts 446-449). -/

def postTTS (env : Env) (r : TTSRequest) : PostResult × Effects × Env :=
  if r.text = "" ∨ (trimChars r.text.data).length = 0 then
    (.json { success := false, error := some "Text is required" } 400, {}, env)
  else if r.text.length > 4000 then
    (.json { success := false, error := some "Text too long (max 4000 characters)" } 400,
     {}, env)
  else
    match
      (if defCache r ∧ defMethod r ≠ .browser then getCachedAudio env (reqKey r)
       else none) with
    | some url => (hitResp url, {}, env)
    | none =>
      match selectTTSMethod (defMethod r) (defQuality r) env.hasApiKey with
      | .openai =>
        let call : RemoteCall :=
          { text := r.text, voice := defVoice r, speed := clampSpeed (defSpeed r) }
        if env.remoteOk then
          if defCache r then
            if env.writeFails then
              (browserResp r, { remoteCalls := [call] }, env)
            else
              (.json { success := true,
                       audioUrl := some (some (cachePath (reqKey r))),
                       method := some .openai, cached := some false,
                       estimatedCost := some (calculateCost r.text) } 200,
               { remoteCalls := [call], cacheWrites := [reqKey r] },
               { env with cache := reqKey r :: env.cache })
          else
            (.raw env.remoteAudio, { remoteCalls := [call] }, env)
        else
          (browserResp r, { remoteCalls := [call] }, env)
      | .browser => (browserResp r, {}, env)
      | .fallback =>
        (.json { success := false, error := some "No TTS method available" } 503,
         {}, env)

/-! ## HybridAudioPlayer (api-client.ts 266-412)

State is `currentStep` (the cursor), `audioQueue`, and `isPlaying`.
`playNextInQueue` advances the cursor before starting the item; the item's
completion (`ended` event, or the post-`playBrowserTTS` timeout) and its
failure (the `error` listener, or the `catch` in `playAudioFile` /
`playBrowserTTS`) each invoke `playNextInQueue` exactly once, so the run of
a queue is a recursion indexed by the remaining items.  An item matching
neither guard (`openai` with a URL, `browser` with text) schedules no
callback, so the recursion stops there with `isPlaying` still true. -/

/-- A queued item (the element shape taken by `queueAudio`). -/
structure QueueItem where
  stepNumber : Nat
  audioUrl : Option String := none
  text : Option String := none
  method : Option String := none
  voice : Option String := none
  speed : Option ℚ := none
deriving DecidableEq

/-- Player state (`currentStep`, `audioQueue`, `isPlaying`). -/
structure PlayerState where
  currentStep : Nat
  audioQueue : List QueueItem
  isPlaying : Bool
deriving DecidableEq

/-- An observable playback event for the item at a queue position. -/
inductive PlayEvent
  | completed (pos : Nat)
  | errored (pos : Nat)
deriving DecidableEq

/-- The run of `playNextInQueue`: `playOk pos` tells whether playback of the
item at position `pos` succeeds.  Fuel-driven (structurally recursive) so
that concrete runs reduce in the kernel; `playQueue` supplies ample fuel. -/
def playRun (playOk : Nat → Bool) : Nat → PlayerState → PlayerState × List PlayEvent
  | 0, s => (s, [])
  | fuel + 1, s =>
    if h : s.currentStep < s.audioQueue.length then
      let item := s.audioQueue.get ⟨s.currentStep, h⟩
      let s' : PlayerState := { s with currentStep := s.currentStep + 1 }
      if (item.method = some "openai" ∧ item.audioUrl.isSome = true) ∨
         (item.method = some "browser" ∧ item.text.isSome = true) then
        let rest := playRun playOk fuel s'
        if playOk s.currentStep then
          (rest.1, .completed s.currentStep :: rest.2)
        else
          (rest.1, .errored s.currentStep :: rest.2)
      else
        (s', [])
    else
      ({ s with isPlaying := false }, [])

/-- `queueAudio(items)` (api-client.ts 298-308): replace the queue, reset
the cursor. -/
def queueAudio (items : List QueueItem) (s : PlayerState) : PlayerState :=
  { s with audioQueue := items, currentStep := 0 }

/-- `playQueue()` (api-client.ts 352-358): if the queue is nonempty, set
`isPlaying`, reset the cursor, and start `playNextInQueue`. -/
def playQueue (playOk : Nat → Bool) (s : PlayerState) : PlayerState × List PlayEvent :=
  if s.audioQueue.length > 0 then
    playRun playOk (s.audioQueue.length + 1)
      { s with isPlaying := true, currentStep := 0 }
  else (s, [])

/-- Effects of `stop()`: the shared audio element is paused and rewound
(when present), and `speechSynthesis.cancel()` is called (when the API is
available), cancelling any in-flight browser rendering. -/
structure StopFx where
  audioPaused : Bool
  audioTimeReset : Bool
  speechCancelled : Bool
deriving DecidableEq

/-- `stop()` (api-client.ts 361-375): pause/rewind the audio element,
cancel speech synthesis, clear the queue, reset the cursor, stop playing. -/
def stopPlayer (hasAudio hasSpeech : Bool) (_s : PlayerState) :
    PlayerState × StopFx :=
  ({ currentStep := 0, audioQueue := [], isPlaying := false },
   { audioPaused := hasAudio, audioTimeReset := hasAudio,
     speechCancelled := hasSpeech })

/-! ## Route shape lemmas

One lemma per control path of `postTTS`, used by the claim theorems. -/

/-- Valid text plus cache-enabled non-browser preference and a readable
cache entry yield the cache-hit response, with no effects. -/
theorem postTTS_hit (env : Env) (r : TTSRequest)
    (hv1 : ¬(r.text = "" ∨ (trimChars r.text.data).length = 0))
    (hv2 : ¬(r.text.length > 4000))
    (hc : defCache r = true) (hm : defMethod r ≠ .browser)
    (hmem : reqKey r ∈ env.cache) (hrf : env.readFails (reqKey r) = false) :
    postTTS env r = (hitResp (cachePath (reqKey r)), {}, env) := by
  unfold postTTS
  rw [if_neg hv1, if_neg hv2]
  have hcond : (defCache r = true ∧ defMethod r ≠ MethodPref.browser) := ⟨hc, hm⟩
  rw [if_pos hcond]
  unfold getCachedAudio
  rw [if_pos ⟨hmem, hrf⟩]

/-- With valid text and no cache hit, the route's outcome is dictated by the
selected method; this lemma exposes the selector dispatch. -/
theorem postTTS_miss (env : Env) (r : TTSRequest)
    (hv1 : ¬(r.text = "" ∨ (trimChars r.text.data).length = 0))
    (hv2 : ¬(r.text.length > 4000))
    (hmiss : (if defCache r = true ∧ defMethod r ≠ .browser
              then getCachedAudio env (reqKey r) else none) = none) :
    postTTS env r =
      match selectTTSMethod (defMethod r) (defQuality r) env.hasApiKey with
      | .openai =>
        let call : RemoteCall :=
          { text := r.text, voice := defVoice r, speed := clampSpeed (defSpeed r) }
        if env.remoteOk then
          if defCache r then
            if env.writeFails then
              (browserResp r, { remoteCalls := [call] }, env)
            else
              (.json { success := true,
                       audioUrl := some (some (cachePath (reqKey r))),
                       method := some .openai, cached := some false,
                       estimatedCost := some (calculateCost r.text) } 200,
               { remoteCalls := [call], cacheWrites := [reqKey r] },
               { env with cache := reqKey r :: env.cache })
          else
            (.raw env.remoteAudio, { remoteCalls := [call] }, env)
        else
          (browserResp r, { remoteCalls := [call] }, env)
      | .browser => (browserResp r, {}, env)
      | .fallback =>
        (.json { success := false, error := some "No TTS method available" } 503,
         {}, env) := by
  unfold postTTS
  rw [if_neg hv1, if_neg hv2, hmiss]

/-- No cache hit and a `fallback` selection surface the 503 service error. -/
theorem postTTS_fallback (env : Env) (r : TTSRequest)
    (hv1 : ¬(r.text = "" ∨ (trimChars r.text.data).length = 0))
    (hv2 : ¬(r.text.length > 4000))
    (hmiss : (if defCache r = true ∧ defMethod r ≠ .browser
              then getCachedAudio env (reqKey r) else none) = none)
    (hsel : selectTTSMethod (defMethod r) (defQuality r) env.hasApiKey = .fallback) :
    postTTS env r =
      (.json { success := false, error := some "No TTS method available" } 503,
       {}, env) := by
  rw [postTTS_miss env r hv1 hv2 hmiss, hsel]

/-- No cache hit and a `browser` selection yield the browser descriptor with
no effects. -/
theorem postTTS_browser (env : Env) (r : TTSRequest)
    (hv1 : ¬(r.text = "" ∨ (trimChars r.text.data).length = 0))
    (hv2 : ¬(r.text.length > 4000))
    (hmiss : (if defCache r = true ∧ defMethod r ≠ .browser
              then getCachedAudio env (reqKey r) else none) = none)
    (hsel : selectTTSMethod (defMethod r) (defQuality r) env.hasApiKey = .browser) :
    postTTS env r = (browserResp r, {}, env) := by
  rw [postTTS_miss env r hv1 hv2 hmiss, hsel]

/-- No cache hit, `openai` selected, but the synthesis call fails: one remote
attempt, then demotion to the browser descriptor; the environment is
untouched and nothing is persisted. -/
theorem postTTS_remoteFail (env : Env) (r : TTSRequest)
    (hv1 : ¬(r.text = "" ∨ (trimChars r.text.data).length = 0))
    (hv2 : ¬(r.text.length > 4000))
    (hmiss : (if defCache r = true ∧ defMethod r ≠ .browser
              then getCachedAudio env (reqKey r) else none) = none)
    (hsel : selectTTSMethod (defMethod r) (defQuality r) env.hasApiKey = .openai)
    (hro : env.remoteOk = false) :
    postTTS env r =
      (browserResp r,
       { remoteCalls := [{ text := r.text, voice := defVoice r,
                           speed := clampSpeed (defSpeed r) }] }, env) := by
  rw [postTTS_miss env r hv1 hv2 hmiss, hsel]
  simp only [hro, Bool.false_eq_true, if_false]

/-- No cache hit, `openai` selected, synthesis succeeds, caching on, write
succeeds: the OpenAI descriptor is returned and the entry persisted. -/
theorem postTTS_remoteSuccess (env : Env) (r : TTSRequest)
    (hv1 : ¬(r.text = "" ∨ (trimChars r.text.data).length = 0))
    (hv2 : ¬(r.text.length > 4000))
    (hmiss : (if defCache r = true ∧ defMethod r ≠ .browser
              then getCachedAudio env (reqKey r) else none) = none)
    (hsel : selectTTSMethod (defMethod r) (defQuality r) env.hasApiKey = .openai)
    (hro : env.remoteOk = true) (hc : defCache r = true)
    (hwf : env.writeFails = false) :
    postTTS env r =
      (.json { success := true,
               audioUrl := some (some (cachePath (reqKey r))),
               method := some .openai, cached := some false,
               estimatedCost := some (calculateCost r.text) } 200,
       { remoteCalls := [{ text := r.text, voice := defVoice r,
                           speed := clampSpeed (defSpeed r) }],
         cacheWrites := [reqKey r] },
       { env with cache := reqKey r :: env.cache }) := by
  rw [postTTS_miss env r hv1 hv2 hmiss, hsel]
  simp only [hro, hc, hwf, Bool.false_eq_true, if_true, if_false]

/-- No cache hit, `openai` selected, synthesis succeeds, caching on, but the
write fails: the `catch` demotes to the browser descriptor; the remote call
was already made, nothing is persisted. -/
theorem postTTS_writeFail (env : Env) (r : TTSRequest)
    (hv1 : ¬(r.text = "" ∨ (trimChars r.text.data).length = 0))
    (hv2 : ¬(r.text.length > 4000))
    (hmiss : (if defCache r = true ∧ defMethod r ≠ .browser
              then getCachedAudio env (reqKey r) else none) = none)
    (hsel : selectTTSMethod (defMethod r) (defQuality r) env.hasApiKey = .openai)
    (hro : env.remoteOk = true) (hc : defCache r = true)
    (hwf : env.writeFails = true) :
    postTTS env r =
      (browserResp r,
       { remoteCalls := [{ text := r.text, voice := defVoice r,
                           speed := clampSpeed (defSpeed r) }] }, env) := by
  rw [postTTS_miss env r hv1 hv2 hmiss, hsel]
  simp only [hro, hc, hwf, if_true]

/-- No cache hit, `openai` selected, synthesis succeeds, caching disabled:
the raw audio bytes are returned instead of a JSON descriptor. -/
theorem postTTS_rawAudio (env : Env) (r : TTSRequest)
    (hv1 : ¬(r.text = "" ∨ (trimChars r.text.data).length = 0))
    (hv2 : ¬(r.text.length > 4000))
    (hmiss : (if defCache r = true ∧ defMethod r ≠ .browser
              then getCachedAudio env (reqKey r) else none) = none)
    (hsel : selectTTSMethod (defMethod r) (defQuality r) env.hasApiKey = .openai)
    (hro : env.remoteOk = true) (hc : defCache r = false) :
    postTTS env r =
      (.raw env.remoteAudio,
       { remoteCalls := [{ text := r.text, voice := defVoice r,
                           speed := clampSpeed (defSpeed r) }] }, env) := by
  rw [postTTS_miss env r hv1 hv2 hmiss, hsel]
  simp only [hro, hc, Bool.false_eq_true, if_true, if_false]

/-! ## Claim theorems -/

/-- **C2**: the method-selection policy satisfies exactly the spec table:
`{auto, high, credentials} → openai`; `{auto, standard, *} → browser`, as
does preference `browser`; `{openai, *, no credentials} → fallback`, and a
fallback selection surfaces the service-level `No TTS method available`
error (never a silent substitution of the browser method). -/
theorem c2_selector_table :
    (selectTTSMethod .auto .high true = .openai) ∧
    (∀ cred : Bool, selectTTSMethod .auto .standard cred = .browser) ∧
    (∀ (q : Quality) (cred : Bool), selectTTSMethod .browser q cred = .browser) ∧
    (∀ q : Quality, selectTTSMethod .openai q false = .fallback) ∧
    (∀ (env : Env) (r : TTSRequest),
      ¬(r.text = "" ∨ (trimChars r.text.data).length = 0) →
      ¬(r.text.length > 4000) →
      (if defCache r = true ∧ defMethod r ≠ .browser
       then getCachedAudio env (reqKey r) else none) = none →
      selectTTSMethod (defMethod r) (defQuality r) env.hasApiKey = .fallback →
      postTTS env r =
        (.json { success := false, error := some "No TTS method available" } 503,
         {}, env)) := by
  refine ⟨rfl, ?_, ?_, ?_, ?_⟩
  · intro cred; cases cred <;> rfl
  · intro q cred; cases q <;> cases cred <;> rfl
  · intro q; cases q <;> rfl
  · intro env r hv1 hv2 hmiss hsel
    exact postTTS_fallback env r hv1 hv2 hmiss hsel

/-- Environment with no OpenAI credential. -/
def envNoKey : Env :=
  { hasApiKey := false, cache := [], readFails := fun _ => false,
    writeFails := false, remoteOk := false, remoteAudio := [] }

/-- A request explicitly preferring the remote method. -/
def reqRemotePref : TTSRequest := { text := "hello", method := some .openai }

/-- Witness for C2: with preference `openai` and no credential, the route
answers 503 `No TTS method available`. -/
theorem c2_selector_table_witness :
    postTTS envNoKey reqRemotePref =
      (.json { success := false, error := some "No TTS method available" } 503,
       {}, envNoKey) :=
  c2_selector_table.2.2.2.2 envNoKey reqRemotePref
    (by decide) (by decide) (by decide) (by decide)

/-- **C3**: when remote synthesis was chosen but the call fails at runtime,
the route demotes to the browser path for this request only (environment
unchanged, nothing persisted) and returns the successful browser
descriptor — the failure never surfaces as an error to the caller. -/
theorem c3_remote_failure_demoted (env : Env) (r : TTSRequest)
    (hv1 : ¬(r.text = "" ∨ (trimChars r.text.data).length = 0))
    (hv2 : ¬(r.text.length > 4000))
    (hmiss : (if defCache r = true ∧ defMethod r ≠ .browser
              then getCachedAudio env (reqKey r) else none) = none)
    (hsel : selectTTSMethod (defMethod r) (defQuality r) env.hasApiKey = .openai)
    (hro : env.remoteOk = false) :
    postTTS env r =
      (.json { success := true, method := some .browser, audioUrl := some none,
               estimatedCost := some 0, text := some r.text,
               voice := some (defVoice r), speed := some (defSpeed r) } 200,
       { remoteCalls := [{ text := r.text, voice := defVoice r,
                           speed := clampSpeed (defSpeed r) }] }, env) :=
  postTTS_remoteFail env r hv1 hv2 hmiss hsel hro

/-- Environment with a credential but a failing remote backend. -/
def envRemoteDown : Env :=
  { hasApiKey := true, cache := [], readFails := fun _ => false,
    writeFails := false, remoteOk := false, remoteAudio := [] }

/-- A high-quality auto request (resolves to the remote method). -/
def reqAutoHigh : TTSRequest :=
  { text := "hello", method := some .auto, quality := some .high }

/-- Witness for C3 at a concrete request and failing backend. -/
theorem c3_remote_failure_demoted_witness :
    postTTS envRemoteDown reqAutoHigh =
      (.json { success := true, method := some .browser, audioUrl := some none,
               estimatedCost := some 0, text := some "hello",
               voice := some "alloy", speed := some 1 } 200,
       { remoteCalls := [{ text := "hello", voice := "alloy",
                           speed := clampSpeed 1 }] }, envRemoteDown) :=
  c3_remote_failure_demoted envRemoteDown reqAutoHigh
    (by decide) (by decide) (by decide) (by decide) (by decide)

/-- Item A of the queue scenario: remote, valid URL. -/
def itemA : QueueItem :=
  { stepNumber := 1, method := some "openai", audioUrl := some "/audio-cache/a.mp3" }

/-- Item B of the queue scenario: remote, URL that errors on play. -/
def itemB : QueueItem :=
  { stepNumber := 2, method := some "openai", audioUrl := some "/audio-cache/b.mp3" }

/-- Item C of the queue scenario: local browser TTS with text. -/
def itemC : QueueItem :=
  { stepNumber := 3, method := some "browser", text := some "done" }

/-- Playback outcomes of the scenario: only the item at position 1 fails. -/
def scenarioPlayOk : Nat → Bool := fun pos => pos != 1

/-- **C5**: enqueue `[A, B, C]` (A remote valid, B remote failing on play,
C local) and play: A completes, B errors and is skipped, C completes; each
failure advances the cursor by exactly one, the queue never halts, and the
final state is stopped (`isPlaying = false`) with cursor 3. -/
theorem c5_queue_scenario :
    playQueue scenarioPlayOk
        (queueAudio [itemA, itemB, itemC]
          { currentStep := 0, audioQueue := [], isPlaying := false }) =
      ({ currentStep := 3, audioQueue := [itemA, itemB, itemC], isPlaying := false },
       [.completed 0, .errored 1, .completed 2]) := by
  decide

/-- **C6**: from every player state, `stop()` yields the stopped state with
cursor 0 and an empty queue, cancels the in-flight speech-synthesis
rendering exactly when the API is present, and is idempotent. -/
theorem c6_stop_idempotent (s : PlayerState) (hasAudio hasSpeech : Bool) :
    (stopPlayer hasAudio hasSpeech s).1 =
      { currentStep := 0, audioQueue := [], isPlaying := false } ∧
    (stopPlayer hasAudio hasSpeech s).2.speechCancelled = hasSpeech ∧
    stopPlayer hasAudio hasSpeech (stopPlayer hasAudio hasSpeech s).1 =
      stopPlayer hasAudio hasSpeech s :=
  ⟨rfl, rfl, rfl⟩

/-- **C8**: whenever the route answers with a browser-method descriptor, that
descriptor carries the request's text, voice and speed for client-side
rendering, has a `null` URL and zero cost, and the operation stored nothing
in the cache (no successful write, environment unchanged). -/
theorem c8_browser_descriptor (env : Env) (r : TTSRequest)
    (body : TTSResponse) (status : Nat) (fx : Effects) (env' : Env)
    (hout : postTTS env r = (.json body status, fx, env'))
    (hbrowser : body.method = some .browser) :
    body.text = some r.text ∧ body.voice = some (defVoice r) ∧
    body.speed = some (defSpeed r) ∧ body.audioUrl = some none ∧
    body.estimatedCost = some 0 ∧ fx.cacheWrites = [] ∧ env' = env := by
  unfold postTTS hitResp browserResp at hout
  repeat' split at hout
  all_goals simp at hout
  all_goals obtain ⟨⟨hb, hst⟩, hfx, henv⟩ := hout
  all_goals subst hb
  all_goals subst hfx
  all_goals subst henv
  all_goals simp_all

/-- A benign environment: credential present, empty cache, no I/O faults. -/
def envPlain : Env :=
  { hasApiKey := true, cache := [], readFails := fun _ => false,
    writeFails := false, remoteOk := true, remoteAudio := [] }

/-- A request explicitly preferring the browser method. -/
def reqBrowserPref : TTSRequest := { text := "hi", method := some .browser }

/-- The browser descriptor the route produces for `reqBrowserPref`. -/
def bodyBrowserW : TTSResponse :=
  { success := true, method := some .browser, audioUrl := some none,
    estimatedCost := some 0, text := some "hi", voice := some "alloy",
    speed := some 1 }

/-- Witness for C8 at a concrete browser-resolved request. -/
theorem c8_browser_descriptor_witness :
    bodyBrowserW.text = some "hi" ∧ bodyBrowserW.voice = some "alloy" ∧
    bodyBrowserW.speed = some 1 ∧ bodyBrowserW.audioUrl = some none ∧
    bodyBrowserW.estimatedCost = some 0 ∧
    (({} : Effects)).cacheWrites = [] ∧ envPlain = envPlain :=
  c8_browser_descriptor envPlain reqBrowserPref bodyBrowserW 200 {} envPlain
    rfl rfl

/-- Environment where the blob-store write fails (cache otherwise empty,
credential present, remote succeeding). -/
def envWriteFail : Env :=
  { hasApiKey := true, cache := [], readFails := fun _ => false,
    writeFails := true, remoteOk := true, remoteAudio := [1, 2, 3] }

/-- A cache-enabled remote-preference request. -/
def reqCachedRemote : TTSRequest :=
  { text := "hi", method := some .openai, cache := some true }

/-- Counterexample to C1 as stated: with caching enabled and a remote
preference, if the cache write fails, synthesizing the identical request
twice invokes the remote backend twice (not at most once), and the second
call returns the browser descriptor rather than reporting `cached: true`. -/
theorem c1_counterexample :
    (postTTS envWriteFail reqCachedRemote).2.1.remoteCalls.length +
      (postTTS ((postTTS envWriteFail reqCachedRemote).2.2)
        reqCachedRemote).2.1.remoteCalls.length = 2 ∧
    (postTTS ((postTTS envWriteFail reqCachedRemote).2.2) reqCachedRemote).1 =
      browserResp reqCachedRemote := by
  constructor
  · rfl
  · rfl

/-- **C1 (amended)**: (i) with caching enabled, a non-browser preference and
a readable cache entry for the request's key, the route returns the
`openai`/`cached: true`/`costEstimate 0` descriptor with the cached location
and invokes no synthesizer (empty effects); (ii) provided the request
resolves to the remote method and neither the remote call nor cache I/O
fails, synthesizing the identical request twice invokes the remote backend
at most once and the second call returns the cache-hit descriptor
(`cached: true`, `costEstimate 0`). -/
theorem c1_cache_hit_and_idempotence :
    (∀ (env : Env) (r : TTSRequest),
      ¬(r.text = "" ∨ (trimChars r.text.data).length = 0) →
      ¬(r.text.length > 4000) →
      defCache r = true → defMethod r ≠ .browser →
      reqKey r ∈ env.cache → env.readFails (reqKey r) = false →
      postTTS env r = (hitResp (cachePath (reqKey r)), {}, env)) ∧
    (∀ (env : Env) (r : TTSRequest),
      ¬(r.text = "" ∨ (trimChars r.text.data).length = 0) →
      ¬(r.text.length > 4000) →
      defCache r = true → defMethod r ≠ .browser →
      selectTTSMethod (defMethod r) (defQuality r) env.hasApiKey = .openai →
      env.remoteOk = true → env.writeFails = false →
      (∀ k, env.readFails k = false) →
      (postTTS env r).2.1.remoteCalls.length +
        (postTTS ((postTTS env r).2.2) r).2.1.remoteCalls.length ≤ 1 ∧
      (postTTS ((postTTS env r).2.2) r).1 =
        hitResp (cachePath (reqKey r))) := by
  constructor
  · intro env r hv1 hv2 hc hm hmem hrf
    exact postTTS_hit env r hv1 hv2 hc hm hmem hrf
  · intro env r hv1 hv2 hc hm hsel hro hwf hrf
    by_cases hmem : reqKey r ∈ env.cache
    · have h1 := postTTS_hit env r hv1 hv2 hc hm hmem (hrf _)
      rw [h1]
      have h2 := postTTS_hit env r hv1 hv2 hc hm hmem (hrf _)
      exact ⟨by simp [h2], by simp [h2]⟩
    · have hmiss : (if defCache r = true ∧ defMethod r ≠ .browser
                    then getCachedAudio env (reqKey r) else none) = none := by
        rw [if_pos ⟨hc, hm⟩]
        unfold getCachedAudio
        rw [if_neg (fun h => hmem h.1)]
      have h1 := postTTS_remoteSuccess env r hv1 hv2 hmiss hsel hro hc hwf
      rw [h1]
      have hmem2 : reqKey r ∈ reqKey r :: env.cache := List.mem_cons_self _ _
      have h2 := postTTS_hit { env with cache := reqKey r :: env.cache } r
        hv1 hv2 hc hm hmem2 (hrf _)
      exact ⟨by simp [h2], by simp [h2]⟩

/-- A second benign environment for the C1 witness. -/
def envPlainB : Env :=
  { hasApiKey := true, cache := [], readFails := fun _ => false,
    writeFails := false, remoteOk := true, remoteAudio := [9] }

/-- A cache-enabled auto/high request for the C1 witness. -/
def reqAutoHighB : TTSRequest :=
  { text := "step one", method := some .auto, quality := some .high }

/-- Witness for the amended C1 at a concrete request: remote invoked at most
once across two identical calls, second answer is the cache hit. -/
theorem c1_cache_hit_and_idempotence_witness :
    (postTTS envPlainB reqAutoHighB).2.1.remoteCalls.length +
      (postTTS ((postTTS envPlainB reqAutoHighB).2.2)
        reqAutoHighB).2.1.remoteCalls.length ≤ 1 ∧
    (postTTS ((postTTS envPlainB reqAutoHighB).2.2) reqAutoHighB).1 =
      hitResp (cachePath (reqKey reqAutoHighB)) :=
  c1_cache_hit_and_idempotence.2 envPlainB reqAutoHighB
    (by decide) (by decide) rfl (by decide) rfl rfl rfl (fun _ => rfl)

/-- Environment for the C4 counterexample: only the write faults. -/
def envWriteFaultC4 : Env :=
  { hasApiKey := true, cache := [], readFails := fun _ => false,
    writeFails := true, remoteOk := true, remoteAudio := [4, 5] }

/-- Cache-enabled remote request for the C4 counterexample. -/
def reqRemoteC4 : TTSRequest :=
  { text := "hi", method := some .openai, cache := some true }

/-- Counterexample to C4 as stated: after a successful remote synthesis, a
failed cache write does not merely skip persisting — the route discards the
remote audio and answers with the browser descriptor instead. -/
theorem c4_counterexample :
    (postTTS envWriteFaultC4 reqRemoteC4).1 =
      .json { success := true, method := some .browser, audioUrl := some none,
              estimatedCost := some 0, text := some "hi",
              voice := some "alloy", speed := some 1 } 200 := by
  rfl

/-- **C4 (amended)**: (i) a failed cache read is treated as a miss; (ii) a
read failure never blocks returning the synthesized remote audio (the
OpenAI descriptor is still produced and persisted); (iii) a failed cache
write after successful remote synthesis skips persisting and makes the
route fall back to the successful browser descriptor for that request — the
remote audio is not returned, but no error surfaces. -/
theorem c4_cache_io_degradation :
    (∀ (env : Env) (key : String), env.readFails key = true →
      getCachedAudio env key = none) ∧
    (∀ (env : Env) (r : TTSRequest),
      ¬(r.text = "" ∨ (trimChars r.text.data).length = 0) →
      ¬(r.text.length > 4000) →
      env.readFails (reqKey r) = true →
      selectTTSMethod (defMethod r) (defQuality r) env.hasApiKey = .openai →
      env.remoteOk = true → defCache r = true → env.writeFails = false →
      postTTS env r =
        (.json { success := true,
                 audioUrl := some (some (cachePath (reqKey r))),
                 method := some .openai, cached := some false,
                 estimatedCost := some (calculateCost r.text) } 200,
         { remoteCalls := [{ text := r.text, voice := defVoice r,
                             speed := clampSpeed (defSpeed r) }],
           cacheWrites := [reqKey r] },
         { env with cache := reqKey r :: env.cache })) ∧
    (∀ (env : Env) (r : TTSRequest),
      ¬(r.text = "" ∨ (trimChars r.text.data).length = 0) →
      ¬(r.text.length > 4000) →
      (if defCache r = true ∧ defMethod r ≠ .browser
       then getCachedAudio env (reqKey r) else none) = none →
      selectTTSMethod (defMethod r) (defQuality r) env.hasApiKey = .openai →
      env.remoteOk = true → defCache r = true → env.writeFails = true →
      postTTS env r =
        (browserResp r,
         { remoteCalls := [{ text := r.text, voice := defVoice r,
                             speed := clampSpeed (defSpeed r) }] }, env)) := by
  refine ⟨?_, ?_, ?_⟩
  · intro env key hrf
    unfold getCachedAudio
    rw [if_neg]
    intro h
    rw [hrf] at h
    exact absurd h.2 (by simp)
  · intro env r hv1 hv2 hrf hsel hro hc hwf
    have hmiss : (if defCache r = true ∧ defMethod r ≠ .browser
                  then getCachedAudio env (reqKey r) else none) = none := by
      split
      · unfold getCachedAudio
        rw [if_neg]
        intro h
        rw [hrf] at h
        exact absurd h.2 (by simp)
      · rfl
    exact postTTS_remoteSuccess env r hv1 hv2 hmiss hsel hro hc hwf
  · intro env r hv1 hv2 hmiss hsel hro hc hwf
    exact postTTS_writeFail env r hv1 hv2 hmiss hsel hro hc hwf

/-- Environment for the C4 witness: reads fault on every key. -/
def envReadFaultC4 : Env :=
  { hasApiKey := true, cache := ["somekey"], readFails := fun _ => true,
    writeFails := false, remoteOk := true, remoteAudio := [6] }

/-- Cache-enabled remote request for the C4 witness. -/
def reqRemoteC4b : TTSRequest :=
  { text := "mix the batter", method := some .openai, cache := some true }

/-- Witness for the amended C4: a faulting read degrades to a miss and the
synthesized remote audio is still returned and persisted. -/
theorem c4_cache_io_degradation_witness :
    postTTS envReadFaultC4 reqRemoteC4b =
      (.json { success := true,
               audioUrl := some (some (cachePath (reqKey reqRemoteC4b))),
               method := some .openai, cached := some false,
               estimatedCost := some (calculateCost "mix the batter") } 200,
       { remoteCalls := [{ text := "mix the batter", voice := "alloy",
                           speed := clampSpeed 1 }],
         cacheWrites := [reqKey reqRemoteC4b] },
       { envReadFaultC4 with cache := reqKey reqRemoteC4b :: ["somekey"] }) :=
  c4_cache_io_degradation.2.1 envReadFaultC4 reqRemoteC4b
    (by decide) (by decide) rfl rfl rfl rfl rfl

/-- Environment for the C9 counterexample: benign, remote succeeding. -/
def envRawC9 : Env :=
  { hasApiKey := true, cache := [], readFails := fun _ => false,
    writeFails := false, remoteOk := true, remoteAudio := [10, 20] }

/-- A cache-disabled remote request. -/
def reqNoCacheC9 : TTSRequest :=
  { text := "hi", method := some .openai, cache := some false }

/-- Counterexample to C9 as stated: with caching disabled and successful
remote synthesis, the route does not answer with a structured descriptor —
it streams the raw audio bytes. -/
theorem c9_counterexample :
    (postTTS envRawC9 reqNoCacheC9).1 = .raw [10, 20] ∧
    (postTTS envRawC9 reqNoCacheC9).1.isJson = false := by
  constructor
  · rfl
  · rfl

/-- **C9 (amended)**: every call passing validation returns a structured
JSON result, except precisely when caching is disabled, the remote method is
selected, and the remote synthesis succeeds — in that single case the raw
audio bytes are returned instead. -/
theorem c9_structured_unless_uncached_remote (env : Env) (r : TTSRequest)
    (hv1 : ¬(r.text = "" ∨ (trimChars r.text.data).length = 0))
    (hv2 : ¬(r.text.length > 4000)) :
    (postTTS env r).1.isJson = false ↔
      (defCache r = false ∧
       selectTTSMethod (defMethod r) (defQuality r) env.hasApiKey = .openai ∧
       env.remoteOk = true) := by
  unfold postTTS
  rw [if_neg hv1, if_neg hv2]
  split
  · rename_i url heq
    constructor
    · intro h
      simp [hitResp, PostResult.isJson] at h
    · rintro ⟨hcf, -, -⟩
      rw [hcf] at heq
      simp at heq
  · rename_i heq
    split <;> rename_i hsel
    · split <;> rename_i hro
      · split <;> rename_i hc
        · split <;> rename_i hwf
          · simp [browserResp, PostResult.isJson, hsel, hro, hc]
          · simp [PostResult.isJson, hsel, hro, hc]
        · simp only [Bool.not_eq_true] at hc
          simp [PostResult.isJson, hsel, hro, hc]
      · simp only [Bool.not_eq_true] at hro
        simp [browserResp, PostResult.isJson, hsel, hro]
    · simp [browserResp, PostResult.isJson, hsel]
    · simp [PostResult.isJson, hsel]

/-- Witness for the amended C9 at the concrete cache-disabled request. -/
theorem c9_structured_unless_uncached_remote_witness :
    (postTTS envRawC9 reqNoCacheC9).1.isJson = false ↔
      (defCache reqNoCacheC9 = false ∧
       selectTTSMethod (defMethod reqNoCacheC9) (defQuality reqNoCacheC9)
         envRawC9.hasApiKey = .openai ∧
       envRawC9.remoteOk = true) :=
  c9_structured_unless_uncached_remote envRawC9 reqNoCacheC9
    (by decide) (by decide)

/-- **C10**: every remote invocation receives the request text, voice and
the speed clamped to `[0.25, 4.0]`, while the cache key is computed from the
raw speed; speeds `4.0` and `8.0` clamp to the same backend input yet
occupy distinct cache entries. -/
theorem c10_clamped_speed_raw_key :
    (∀ (env : Env) (r : TTSRequest) (rc : RemoteCall),
      rc ∈ (postTTS env r).2.1.remoteCalls →
      rc = { text := r.text, voice := defVoice r,
             speed := clampSpeed (defSpeed r) }) ∧
    (clampSpeed 4 = clampSpeed 8 ∧ clampSpeed 8 = 4) ∧
    generateCacheKey "x" "alloy" 4 ≠ generateCacheKey "x" "alloy" 8 := by
  refine ⟨?_, ⟨by decide, by decide⟩, by decide⟩
  intro env r rc hmem
  unfold postTTS at hmem
  repeat' split at hmem
  all_goals simp_all

/-- Environment for the C10 witness. -/
def envC10 : Env :=
  { hasApiKey := true, cache := [], readFails := fun _ => false,
    writeFails := false, remoteOk := true, remoteAudio := [] }

/-- An out-of-range-speed, cache-disabled remote request. -/
def reqC10 : TTSRequest :=
  { text := "x", voice := some "alloy", speed := some 8,
    method := some .openai, cache := some false }

/-- Witness for C10: the one remote call of a concrete request carries the
clamped speed. -/
theorem c10_clamped_speed_raw_key_witness :
    ({ text := "x", voice := "alloy", speed := clampSpeed 8 } : RemoteCall) =
      { text := reqC10.text, voice := defVoice reqC10,
        speed := clampSpeed (defSpeed reqC10) } :=
  c10_clamped_speed_raw_key.1 envC10 reqC10 _ (by decide)

/-! ## C7: determinism and injectivity of the cache key -/

/-- Strings with equal character data are equal. -/
theorem strEq_of_data {a b : String} (h : a.data = b.data) : a = b :=
  String.ext h

/-- Varying only the text changes the pre-hash content. -/
theorem cacheKeyContent_text_inj (t1 t2 v : String) (s : ℚ)
    (h : cacheKeyContent t1 v s = cacheKeyContent t2 v s) : t1 = t2 := by
  unfold cacheKeyContent at h
  have hd := congrArg String.data h
  simp only [String.data_append] at hd
  apply strEq_of_data
  exact List.append_cancel_right (List.append_cancel_right
    (List.append_cancel_right (List.append_cancel_right hd)))

/-- Varying only the voice changes the pre-hash content. -/
theorem cacheKeyContent_voice_inj (t v1 v2 : String) (s : ℚ)
    (h : cacheKeyContent t v1 s = cacheKeyContent t v2 s) : v1 = v2 := by
  unfold cacheKeyContent at h
  have hd := congrArg String.data h
  simp only [String.data_append] at hd
  apply strEq_of_data
  exact List.append_cancel_left (List.append_cancel_right
    (List.append_cancel_right hd))

/-- Varying only the speed rendering changes the pre-hash content. -/
theorem cacheKeyContent_speed_inj (t v : String) (s1 s2 : ℚ)
    (h : cacheKeyContent t v s1 = cacheKeyContent t v s2) :
    numToString s1 = numToString s2 := by
  unfold cacheKeyContent at h
  have hd := congrArg String.data h
  simp only [String.data_append] at hd
  apply strEq_of_data
  exact List.append_cancel_left hd

/-- Texts indexed by the bits of a number: 129 characters, `'b'` where the
bit is set. -/
def bitText (n : Nat) : String :=
  ⟨(List.range 129).map (fun i => if n.testBit i then 'b' else 'a')⟩

/-- `bitText` is injective below `2^129`. -/
theorem bitText_inj (m n : Nat) (hm : m < 2 ^ 129) (hn : n < 2 ^ 129)
    (h : bitText m = bitText n) : m = n := by
  have hd := congrArg String.data h
  simp only [bitText] at hd
  apply Nat.eq_of_testBit_eq
  intro i
  by_cases hi : i < 129
  · have hg := congrArg (fun l => l.getD i 'z') hd
    simp only [List.getD, List.getElem?_map, List.getElem?_range, hi,
      if_true, Option.map_some', Option.getD_some] at hg
    by_cases hb1 : m.testBit i <;> by_cases hb2 : n.testBit i <;> simp_all
  · have hle : (2 : Nat) ^ 129 ≤ 2 ^ i :=
      Nat.pow_le_pow_right (by norm_num) (by omega)
    rw [Nat.testBit_lt_two_pow (lt_of_lt_of_le hm hle),
      Nat.testBit_lt_two_pow (lt_of_lt_of_le hn hle)]

/-- Counterexample to C7 as stated: the key is an md5 digest with at most
`2^128` values, while there are `2^129` distinct 129-character texts, so by
pigeonhole two distinct `(text, voice, speed)` triples (voice in the fixed
set) must share a key — the universal injectivity claim is false. -/
theorem c7_counterexample :
    ¬ ((∀ (t v : String) (s : ℚ), generateCacheKey t v s = generateCacheKey t v s) ∧
       (∀ (t1 v1 : String) (s1 : ℚ) (t2 v2 : String) (s2 : ℚ),
         v1 ∈ voiceNames → v2 ∈ voiceNames →
         (t1, v1, s1) ≠ (t2, v2, s2) →
         generateCacheKey t1 v1 s1 ≠ generateCacheKey t2 v2 s2)) := by
  rintro ⟨-, hinj⟩
  have hv : "alloy" ∈ voiceNames := by decide
  have key_inj : Function.Injective (fun i : Fin (2 ^ 129) =>
      (⟨md5Nat (strUtf8 (cacheKeyContent (bitText i.val) "alloy" 1)),
        md5Nat_lt _⟩ : Fin 340282366920938463463374607431768211456)) := by
    intro i j hij
    by_contra hne
    have hij' : md5Nat (strUtf8 (cacheKeyContent (bitText i.val) "alloy" 1)) =
        md5Nat (strUtf8 (cacheKeyContent (bitText j.val) "alloy" 1)) :=
      congrArg Fin.val hij
    have htext : bitText i.val ≠ bitText j.val := by
      intro h
      exact hne (Fin.ext (bitText_inj _ _ i.isLt j.isLt h))
    have hdiff : (bitText i.val, "alloy", (1 : ℚ)) ≠
        (bitText j.val, "alloy", (1 : ℚ)) := by
      intro h
      exact htext (congrArg Prod.fst h)
    exact hinj _ _ _ _ _ _ hv hv hdiff (congrArg digestHex hij')
  have hcard := Fintype.card_le_of_injective _ key_inj
  simp only [Fintype.card_fin] at hcard
  have h128 : (340282366920938463463374607431768211456 : ℕ) = 2 ^ 128 := by
    norm_num
  rw [h128] at hcard
  have := (Nat.pow_le_pow_iff_right (by norm_num : 1 < 2)).mp hcard
  omega

/-- **C7 (amended)**: `generateCacheKey` is deterministic, and varying any
single input — the text, the voice, or the rendered speed — changes the
pre-hash content string; key collisions can therefore arise only from md5
digest collisions on distinct contents (which exist by pigeonhole but are
computationally hard to exhibit). -/
theorem c7_key_determinism_and_content :
    (∀ (t v : String) (s : ℚ), generateCacheKey t v s = generateCacheKey t v s) ∧
    (∀ (t1 t2 v : String) (s : ℚ), t1 ≠ t2 →
      cacheKeyContent t1 v s ≠ cacheKeyContent t2 v s) ∧
    (∀ (t v1 v2 : String) (s : ℚ), v1 ≠ v2 →
      cacheKeyContent t v1 s ≠ cacheKeyContent t v2 s) ∧
    (∀ (t v : String) (s1 s2 : ℚ), numToString s1 ≠ numToString s2 →
      cacheKeyContent t v s1 ≠ cacheKeyContent t v s2) := by
  refine ⟨fun _ _ _ => rfl, ?_, ?_, ?_⟩
  · intro t1 t2 v s hne h
    exact hne (cacheKeyContent_text_inj t1 t2 v s h)
  · intro t v1 v2 s hne h
    exact hne (cacheKeyContent_voice_inj t v1 v2 s h)
  · intro t v s1 s2 hne h
    exact hne (cacheKeyContent_speed_inj t v s1 s2 h)

/-- Witness for the amended C7 at concrete inputs: changing the voice from
`alloy` to `echo` changes the pre-hash content. -/
theorem c7_key_determinism_and_content_witness :
    cacheKeyContent "stir" "alloy" 1 ≠ cacheKeyContent "stir" "echo" 1 :=
  c7_key_determinism_and_content.2.2.1 "stir" "alloy" "echo" 1 (by decide)
